import Mathlib

/-!
Verification of the AI review-orchestration pipeline of this repository.

The repository ships two duplicated variants of the reviewer script:
`src/reviewer/ai_reviewer.py` (namespace `Src` below: the full fallback
controller that parses a retry delay and retries a rate-limited candidate
once) and `python_src/reviewer/ai_reviewer.py` (namespace `PySrc` below:
the newer-SDK variant with the richer change-set fetcher and the
five-pattern retry-delay routine).  Shared constants and helpers live in
namespace `Reviewer`.

Embedding conventions: Python strings are Lean `String`s manipulated via
their underlying `List Char`; `str.lower()` is modelled as ASCII lowering
(the phrases and markers the code matches are all ASCII); the numeric
values captured by the regular expressions `\d+(?:\.\d+)?` are modelled as
exact rationals (`ℚ`); the external model provider is an oracle function,
and the observable actions of a run (provider invocations, sleeps,
recorded failures, posted comments) are reified as an event trace.
-/

namespace Reviewer

/-- ASCII lowering of one character, modelling Python `str.lower()` on the
ASCII fragment relevant to the matched phrases. -/
def lowerChar (c : Char) : Char :=
  if 65 ≤ c.toNat ∧ c.toNat ≤ 90 then Char.ofNat (c.toNat + 32) else c

/-- Modelling of Python `str.lower()` (ASCII fragment). -/
def lowerStr (s : String) : String := ⟨s.data.map lowerChar⟩

/-- Substring test on character lists, modelling Python `x in s`. -/
def containsSub : List Char → List Char → Bool
  | [], pat => pat.isPrefixOf ([] : List Char)
  | c :: t, pat => pat.isPrefixOf (c :: t) || containsSub t pat

/-- Substring test on strings, modelling Python `x in s`. -/
def strContains (s pat : String) : Bool := containsSub s.data pat.data

/-- Value of a digit string, as captured by the regex group `\d+`. -/
def digitsVal (ds : List Char) : Nat := ds.foldl (fun a c => 10 * a + (c.toNat - 48)) 0

/-- Match, at the head of `l`, the regex fragment `(\d+(?:\.\d+)?)` followed by a
suffix accepted by `tailOk`, returning the captured number as an exact rational.
The optional fractional group is matched greedily first and given back if the
tail then fails, mirroring the regex engine's backtracking. -/
def matchNumTail (tailOk : List Char → Bool) (l : List Char) : Option ℚ :=
  let ds := l.takeWhile Char.isDigit
  if ds.isEmpty then none
  else
    let rest := l.drop ds.length
    let intv : ℚ := (digitsVal ds : ℚ)
    match rest with
    | '.' :: r2 =>
      let fs := r2.takeWhile Char.isDigit
      if fs.isEmpty then
        if tailOk rest then some intv else none
      else
        let fracRest := r2.drop fs.length
        if tailOk fracRest then some (intv + (digitsVal fs : ℚ) / ((10 : ℚ) ^ fs.length))
        else if tailOk rest then some intv else none
    | _ => if tailOk rest then some intv else none

/-- Try the pattern `pre ++ (\d+(?:\.\d+)?) ++ tail` anchored at the head of `l`. -/
def attemptNum (pre : List Char) (tailOk : List Char → Bool) (l : List Char) : Option ℚ :=
  if pre.isPrefixOf l then matchNumTail tailOk (l.drop pre.length) else none

/-- `re.search` for the pattern `pre ++ (\d+(?:\.\d+)?) ++ tail`: scan start
positions left to right and return the number captured at the leftmost match. -/
def searchNum (pre : List Char) (tailOk : List Char → Bool) : List Char → Option ℚ
  | [] => attemptNum pre tailOk []
  | c :: t =>
    match attemptNum pre tailOk (c :: t) with
    | some v => some v
    | none => searchNum pre tailOk t

/-- Tail of the regexes `... seconds?`: the literal `" second"` (the trailing
`s?` never constrains acceptance). -/
def secTail (l : List Char) : Bool := " second".data.isPrefixOf l

/-- Tail of the regex `(\d+(?:\.\d+)?) seconds? before retry`. -/
def beforeRetryTail (l : List Char) : Bool :=
  " seconds before retry".data.isPrefixOf l || " second before retry".data.isPrefixOf l

/-- Python `str.endswith`. -/
def strEndsWith (s suffix : String) : Bool := suffix.data.isSuffixOf s.data

/-- `REVIEWABLE_EXTENSIONS`, identical in both variants. -/
def REVIEWABLE_EXTENSIONS : List String :=
  [".ts", ".tsx", ".js", ".css", ".sql", ".py", ".md", ".json", ".yml", ".toml"]

/-- `MODEL_PRIORITIES`, identical in both variants. -/
def MODEL_PRIORITIES : List String :=
  ["gemini-3-flash-preview", "gemini-2.5-flash", "gemini-2.5-flash-lite", "gemini-2.5-pro",
   "gemini-2.0-flash", "gemini-2.0-flash-lite", "gemini-2.0-pro"]

/-- Candidate-list construction, identical in both variants:
`models_to_try = MODEL_PRIORITIES.copy()`, then
`if MODEL_NAME and MODEL_NAME not in MODEL_PRIORITIES: models_to_try.insert(0, MODEL_NAME)`.
Python string truthiness is nonemptiness. -/
def modelsToTry (modelName : String) : List String :=
  if modelName ≠ "" ∧ modelName ∉ MODEL_PRIORITIES then modelName :: MODEL_PRIORITIES
  else MODEL_PRIORITIES

/-- Result of one call to the external model provider (`analyze_code`):
a review text, a Google API error (carrying an optional status code and the
exception message), or any other exception (e.g. `ReviewerError`). -/
inductive Outcome where
  | success (text : String)
  | apiError (code : Option Int) (msg : String)
  | fatal (msg : String)
deriving DecidableEq, Repr

def Outcome.isSuccess : Outcome → Bool
  | .success _ => true
  | _ => false

/-- `str(e)` of the raised exception. -/
def Outcome.message : Outcome → String
  | .success _ => ""
  | .apiError _ m => m
  | .fatal m => m

/-- Observable actions of a pipeline run: provider invocations (with the
per-candidate attempt index), backoff sleeps, assignments to `last_error`,
and comments posted to the sink. -/
inductive Event where
  | invoke (model : String) (attempt : Nat)
  | sleep (delay : ℚ)
  | failObs (e : Outcome)
  | post (body : String)
deriving DecidableEq, Repr

def Event.isPost : Event → Bool
  | .post _ => true
  | _ => false

/-- The `last_error` assignments of a trace, in chronological order. -/
def failuresIn (evs : List Event) : List Outcome :=
  evs.filterMap fun e => match e with | .failObs o => some o | _ => none

/-- One changed file as listed by the hosting provider: path, status, and the
optional patch text (absent for binary files, pure renames, oversized diffs). -/
structure PRFile where
  filename : String
  status : String
  patch : Option String
deriving DecidableEq, Repr

/-- Per-file diff block `### File: {filename}\n...diff fence...{patch}...`,
identical in both variants. -/
def fileBlock (name patchText : String) : String :=
  "### File: " ++ name ++ "\n```diff\n" ++ patchText ++ "\n```"

end Reviewer

namespace Reviewer.Src

/-!  Embedding of `src/reviewer/ai_reviewer.py`. -/

/-- `DEFAULT_MODEL_NAME` of `src/reviewer/ai_reviewer.py`. -/
def DEFAULT_MODEL_NAME : String := "gemini-2.5-pro"

/-- The exclusion substrings of `get_pr_diff`. -/
def EXCLUDED : List String :=
  ["package-lock.json", "yarn.lock", "pnpm-lock.yaml", "dist/", "out/", "build/"]

/-- Rendering of `f.patch` inside the f-string: Python prints `None` for an
absent patch (this variant has no guard against it). -/
def renderPatch : Option String → String
  | none => "None"
  | some p => p

/-- The per-file filtering of `get_pr_diff`: returns the diff block appended
to `diff_content`, or `none` when the file is filtered out. -/
def processFile (f : PRFile) : Option String :=
  if f.status = "removed" then none
  else if EXCLUDED.any (fun x => strContains f.filename x) then none
  else if REVIEWABLE_EXTENSIONS.any (fun e => strEndsWith f.filename e) then
    some (fileBlock f.filename (renderPatch f.patch))
  else none

def diffBlocks (files : List PRFile) : List String := files.filterMap processFile

/-- `"\n\n".join(diff_content)`. -/
def fullDiff (files : List PRFile) : String := String.intercalate "\n\n" (diffBlocks files)

/-- `parse_retry_delay` of `src/reviewer/ai_reviewer.py`: four regex patterns
tried in order against `error_message.lower()`, first captured number wins
(the dead `except` that would skip a malformed number is unreachable since
`float` accepts every string matched by `\d+(?:\.\d+)?`). -/
def parse_retry_delay (errorMessage : String) : Option ℚ :=
  let s := (lowerStr errorMessage).data
  match searchNum "retry in ".data secTail s with
  | some v => some v
  | none =>
    match searchNum "retry after ".data secTail s with
    | some v => some v
    | none =>
      match searchNum "wait ".data secTail s with
      | some v => some v
      | none => searchNum [] beforeRetryTail s

/-- The `is_rate_limit` classification of `main`: explicit 429 status code, or
`'429' in error_message`, or `'quota'`/`'rate limit'`/`'resource exhausted'`
in `error_message.lower()`. -/
def isRateLimit (code : Option Int) (msg : String) : Bool :=
  (code == some 429) || strContains msg "429" || strContains (lowerStr msg) "quota" ||
    strContains (lowerStr msg) "rate limit" || strContains (lowerStr msg) "resource exhausted"

/-- What happened on one candidate: accepted text, recoverable failure
(advance to the next candidate, with the final `last_error` value recorded
for this candidate), or an uncaught exception aborting the whole loop. -/
inductive TryResult where
  | ok (text : String) (events : List Event)
  | failed (events : List Event) (lastErr : Outcome)
  | aborted (events : List Event) (err : Outcome)
deriving DecidableEq, Repr

/-- The event trace of one candidate's attempt(s). -/
def TryResult.events : TryResult → List Event
  | .ok _ evs => evs
  | .failed evs _ => evs
  | .aborted evs _ => evs

/-- The rate-limit arm of `main`'s except-handler: parse a delay; if one was
found and exceeds 1 second, sleep and retry the same candidate once (any
second failure is recorded and the loop advances); otherwise advance. -/
def rateLimitBranch (oracle : String → Nat → Outcome) (m : String)
    (code : Option Int) (msg : String) : TryResult :=
  let e := Outcome.apiError code msg
  match parse_retry_delay msg with
  | some d =>
    if 1 < d then
      match oracle m 1 with
      | .success t => .ok t [.invoke m 0, .failObs e, .sleep d, .invoke m 1]
      | o => .failed [.invoke m 0, .failObs e, .sleep d, .invoke m 1, .failObs o] o
    else .failed [.invoke m 0, .failObs e] e
  | none => .failed [.invoke m 0, .failObs e] e

/-- One iteration of `main`'s fallback loop on candidate `m`.  The oracle
gives the provider's outcome for `(candidate, attempt)`; only
`google_exceptions.GoogleAPIError` (here `Outcome.apiError`) is caught by the
loop, any other exception propagates. -/
def tryCandidate (oracle : String → Nat → Outcome) (m : String) : TryResult :=
  match oracle m 0 with
  | .success t => .ok t [.invoke m 0]
  | .fatal msg => .aborted [.invoke m 0] (.fatal msg)
  | .apiError code msg =>
    if isRateLimit code msg then rateLimitBranch oracle m code msg
    else .failed [.invoke m 0, .failObs (.apiError code msg)] (.apiError code msg)

/-- Result of the whole fallback loop. -/
inductive LoopOut where
  | accepted (text model : String) (events : List Event) (lastErr : Option Outcome)
  | exhausted (events : List Event) (lastErr : Option Outcome)
  | aborted (events : List Event) (err : Outcome)
deriving DecidableEq, Repr

def LoopOut.prepend (evs : List Event) : LoopOut → LoopOut
  | .accepted t m evs' le => .accepted t m (evs ++ evs') le
  | .exhausted evs' le => .exhausted (evs ++ evs') le
  | .aborted evs' e => .aborted (evs ++ evs') e

/-- The event trace of a loop result. -/
def LoopOut.events : LoopOut → List Event
  | .accepted _ _ evs _ => evs
  | .exhausted evs _ => evs
  | .aborted evs _ => evs

/-- The failure surfaced when no result was accepted: the final `last_error`
for an exhausted loop, the propagated exception for an aborted one. -/
def LoopOut.lastErr : LoopOut → Option Outcome
  | .accepted _ _ _ le => le
  | .exhausted _ le => le
  | .aborted _ e => some e

/-- Did the loop run out of candidates without accepting a result? -/
def LoopOut.isExhausted : LoopOut → Bool
  | .exhausted _ _ => true
  | _ => false

/-- `main`'s fallback loop over the candidate list, threading `last_error`. -/
def runLoop (oracle : String → Nat → Outcome) : List String → Option Outcome → LoopOut
  | [], le => .exhausted [] le
  | m :: rest, le =>
    match tryCandidate oracle m with
    | .ok t evs => .accepted t m evs le
    | .aborted evs e => .aborted evs e
    | .failed evs e' => LoopOut.prepend evs (runLoop oracle rest (some e'))

/-- The posted comment body. -/
def formatComment (text model : String) : String :=
  "## 🛡️ Ревью Архитектора \n\n" ++ text ++ "\n\n*Движок: " ++ model ++ "*"

/-- `main` from the empty-diff check onward, given the assembled diff text,
the provider oracle and the `MODEL_NAME` environment value: returns the
process exit code and the observable event trace.  An early `return` on an
empty diff and a successful publish both exit 0; an exhausted loop raises
`ReviewerError` and an aborted loop propagates, both caught by the outer
handler which exits 1. -/
def mainRun (diffText : String) (oracle : String → Nat → Outcome) (modelName : String) :
    Nat × List Event :=
  if diffText = "" then (0, [])
  else
    match runLoop oracle (modelsToTry modelName) none with
    | .accepted t m evs _ =>
      if t ≠ "" ∧ m ≠ "" then (0, evs ++ [.post (formatComment t m)]) else (1, evs)
    | .exhausted evs _ => (1, evs)
    | .aborted evs _ => (1, evs)

end Reviewer.Src

namespace Reviewer.PySrc

/-!  Embedding of `python_src/reviewer/ai_reviewer.py`. -/

/-- `DEFAULT_MODEL_NAME` of `python_src/reviewer/ai_reviewer.py`. -/
def DEFAULT_MODEL_NAME : String := "gemini-2.0-flash"

/-- The exclusion substrings of `get_pr_data` (this variant also excludes
`repomix-output.xml`). -/
def EXCLUDED : List String :=
  ["package-lock.json", "yarn.lock", "pnpm-lock.yaml", "dist/", "out/", "build/",
   "repomix-output.xml"]

/-- What `get_pr_data` does with one file: filtered out silently, skipped
with a warning (`if not f.patch`, i.e. `None` or empty patch), or a diff
block (truncated at 20000 characters with the `[TRUNCATED]` marker). -/
inductive FileAction where
  | skip
  | skipWarn
  | block (text : String)
deriving DecidableEq, Repr

/-- The per-file filtering, patch guard and truncation of `get_pr_data`. -/
def processFile (f : PRFile) : FileAction :=
  if f.status = "removed" then .skip
  else if EXCLUDED.any (fun x => strContains f.filename x) then .skip
  else if REVIEWABLE_EXTENSIONS.any (fun e => strEndsWith f.filename e) then
    match f.patch with
    | none => .skipWarn
    | some p =>
      if p = "" then .skipWarn
      else .block (fileBlock f.filename
        (if p.length < 20000 then p else p.take 20000 ++ "\n... [TRUNCATED]"))
  else .skip

def diffBlocks (files : List PRFile) : List String :=
  files.filterMap fun f => match processFile f with | .block t => some t | _ => none

/-- `"\n\n".join(diff_content)`. -/
def fullDiff (files : List PRFile) : String := String.intercalate "\n\n" (diffBlocks files)

/-- `parse_retry_delay` of `python_src/reviewer/ai_reviewer.py`: three numeric
patterns, then the bare markers `'429'` and `'resource exhausted'` which have
no capture group and yield the fixed default of 5.0 seconds; `None` when
nothing matches (the `except` arm returning 5.0 on a malformed number is
unreachable since `float` accepts every string matched by `\d+(?:\.\d+)?`). -/
def parse_retry_delay (errorMessage : String) : Option ℚ :=
  let s := (lowerStr errorMessage).data
  match searchNum "retry in ".data secTail s with
  | some v => some v
  | none =>
    match searchNum "retry after ".data secTail s with
    | some v => some v
    | none =>
      match searchNum "wait ".data secTail s with
      | some v => some v
      | none =>
        if containsSub s "429".data then some 5
        else if containsSub s "resource exhausted".data then some 5
        else none

/-- The rate-limit test of `main`: `"429" in error_message or
"resource exhausted" in error_message.lower()`. -/
def isRateLimitMsg (msg : String) : Bool :=
  strContains msg "429" || strContains (lowerStr msg) "resource exhausted"

/-- Result of this variant's fallback loop (its `except Exception` arm
catches every failure, so the loop never aborts early). -/
inductive PyLoopOut where
  | accepted (text model : String) (events : List Event) (lastErr : Option Outcome)
  | exhausted (events : List Event) (lastErr : Option Outcome)
deriving DecidableEq, Repr

def PyLoopOut.prepend (evs : List Event) : PyLoopOut → PyLoopOut
  | .accepted t m evs' le => .accepted t m (evs ++ evs') le
  | .exhausted evs' le => .exhausted (evs ++ evs') le

/-- The event trace of a loop result. -/
def PyLoopOut.events : PyLoopOut → List Event
  | .accepted _ _ evs _ => evs
  | .exhausted evs _ => evs

/-- The final `last_error` value of the loop. -/
def PyLoopOut.lastErr : PyLoopOut → Option Outcome
  | .accepted _ _ _ le => le
  | .exhausted _ le => le

/-- Did the loop run out of candidates without accepting a result? -/
def PyLoopOut.isExhausted : PyLoopOut → Bool
  | .exhausted _ _ => true
  | _ => false

/-- `main`'s fallback loop: one attempt per candidate; on a rate-limit
message it sleeps a fixed 10 seconds and then advances to the next
candidate (no retry of the same candidate in this variant). -/
def runLoop (oracle : String → Outcome) : List String → Option Outcome → PyLoopOut
  | [], le => .exhausted [] le
  | m :: rest, le =>
    match oracle m with
    | .success t => .accepted t m [.invoke m 0] le
    | o =>
      let evs := [Event.invoke m 0, Event.failObs o] ++
        (if isRateLimitMsg o.message then [Event.sleep 10] else [])
      PyLoopOut.prepend evs (runLoop oracle rest (some o))

/-- The posted comment body. -/
def formatComment (text model : String) : String :=
  "## 🛡️ Архитектор (AI Review)\n\n" ++ text ++ "\n\n*Analyzed by: " ++ model ++ "*"

/-- `main` from the empty-diff check onward: exit code and event trace. -/
def mainRun (diffText : String) (oracle : String → Outcome) (modelName : String) :
    Nat × List Event :=
  if diffText = "" then (0, [])
  else
    match runLoop oracle (modelsToTry modelName) none with
    | .accepted t m evs _ =>
      if t ≠ "" ∧ m ≠ "" then (0, evs ++ [.post (formatComment t m)]) else (1, evs)
    | .exhausted evs _ => (1, evs)

end Reviewer.PySrc

namespace Reviewer

theorem toNat_ofNat_add32 (n : Nat) (h1 : 65 ≤ n) (h2 : n ≤ 90) :
    (Char.ofNat (n + 32)).toNat = n + 32 := by
  have hv : Nat.isValidChar (n + 32) := by
    unfold Nat.isValidChar
    left
    omega
  unfold Char.ofNat
  rw [dif_pos hv]
  unfold Char.ofNatAux
  rfl

theorem char_toNat_injective {a b : Char} (h : a.toNat = b.toNat) : a = b := by
  have ha := Char.ofNat_toNat a
  have hb := Char.ofNat_toNat b
  rw [← ha, ← hb, h]

theorem lowerChar_eq_digit (d : Char) (hd : d.toNat < 65) (c : Char) :
    (lowerChar c = d) ↔ (c = d) := by
  unfold lowerChar
  by_cases h : 65 ≤ c.toNat ∧ c.toNat ≤ 90
  · rw [if_pos h]
    constructor
    · intro he
      exfalso
      have := toNat_ofNat_add32 c.toNat h.1 h.2
      rw [he] at this
      omega
    · intro he
      exfalso
      rw [he] at h
      omega
  · rw [if_neg h]

theorem lowerChar_idem (c : Char) : lowerChar (lowerChar c) = lowerChar c := by
  unfold lowerChar
  by_cases h : 65 ≤ c.toNat ∧ c.toNat ≤ 90
  · rw [if_pos h]
    have := toNat_ofNat_add32 c.toNat h.1 h.2
    rw [if_neg (by omega)]
  · rw [if_neg h, if_neg h]

theorem map_lowerChar_idem (l : List Char) :
    (l.map lowerChar).map lowerChar = l.map lowerChar := by
  induction l with
  | nil => rfl
  | cons c cs ih => simp [lowerChar_idem, ih]

theorem lowerStr_idem (s : String) : lowerStr (lowerStr s) = lowerStr s := by
  unfold lowerStr
  simp only [map_lowerChar_idem]

theorem beq_lowerChar_digit (d : Char) (hd : d.toNat < 65) (c : Char) :
    (d == lowerChar c) = (d == c) := by
  rw [Bool.eq_iff_iff]
  simp only [beq_iff_eq]
  constructor
  · intro h
    exact ((lowerChar_eq_digit d hd c).mp h.symm).symm
  · intro h
    exact ((lowerChar_eq_digit d hd c).mpr h.symm).symm

theorem isPrefixOf_map_lower (pat : List Char) (hpat : ∀ d ∈ pat, d.toNat < 65) :
    ∀ l : List Char, pat.isPrefixOf (l.map lowerChar) = pat.isPrefixOf l := by
  induction pat with
  | nil => intro l; cases l <;> rfl
  | cons d ds ih =>
    intro l
    cases l with
    | nil => rfl
    | cons c cs =>
      have hd : d.toNat < 65 := hpat d (by simp)
      have ihs := ih (fun x hx => hpat x (by simp [hx]))
      simp only [List.map_cons, List.isPrefixOf_cons₂]
      rw [beq_lowerChar_digit d hd c, ihs]

theorem containsSub_map_lower (pat : List Char) (hpat : ∀ d ∈ pat, d.toNat < 65) :
    ∀ l : List Char, containsSub (l.map lowerChar) pat = containsSub l pat := by
  intro l
  induction l with
  | nil => rfl
  | cons c cs ih =>
    simp only [List.map_cons, containsSub]
    rw [ih, ← List.map_cons, isPrefixOf_map_lower pat hpat]

theorem strContains_lower_429 (s : String) :
    strContains (lowerStr s) "429" = strContains s "429" := by
  unfold strContains lowerStr
  exact containsSub_map_lower "429".data (by decide) s.data
end Reviewer

namespace Reviewer

theorem option_or_none {α : Type} (o : Option α) : o.or none = o := by
  cases o <;> rfl

theorem failuresIn_append (l1 l2 : List Event) :
    failuresIn (l1 ++ l2) = failuresIn l1 ++ failuresIn l2 := by
  unfold failuresIn
  exact List.filterMap_append l1 l2 _

theorem Src.tryCandidate_failed_lastErr {oracle : String → Nat → Outcome} {m : String}
    {evs : List Event} {e' : Outcome}
    (h : Src.tryCandidate oracle m = .failed evs e') :
    (failuresIn evs).getLast? = some e' ∧ evs.filter Event.isPost = [] := by
  unfold Src.tryCandidate at h
  cases h0 : oracle m 0 <;> rw [h0] at h
  case success t => simp at h
  case fatal msg => simp at h
  case apiError code msg =>
    dsimp only at h
    by_cases hrl : isRateLimit code msg
    · rw [if_pos hrl] at h
      unfold Src.rateLimitBranch at h
      cases hp : Src.parse_retry_delay msg with
      | none =>
        rw [hp] at h
        dsimp only at h
        obtain ⟨h1, h2⟩ := TryResult.failed.inj h
        subst h1; subst h2
        simp [failuresIn, Event.isPost]
      | some d =>
        rw [hp] at h
        dsimp only at h
        by_cases hd : 1 < d
        · rw [if_pos hd] at h
          cases h1 : oracle m 1 with
          | success t =>
            rw [h1] at h
            simp at h
          | apiError code2 msg2 =>
            rw [h1] at h
            obtain ⟨ha, hb⟩ := TryResult.failed.inj h
            subst ha; subst hb
            simp [failuresIn, Event.isPost]
          | fatal msg2 =>
            rw [h1] at h
            obtain ⟨ha, hb⟩ := TryResult.failed.inj h
            subst ha; subst hb
            simp [failuresIn, Event.isPost]
        · rw [if_neg hd] at h
          obtain ⟨ha, hb⟩ := TryResult.failed.inj h
          subst ha; subst hb
          simp [failuresIn, Event.isPost]
    · rw [if_neg hrl] at h
      obtain ⟨ha, hb⟩ := TryResult.failed.inj h
      subst ha; subst hb
      simp [failuresIn, Event.isPost]

theorem Src.runLoop_exhausted_inv (oracle : String → Nat → Outcome) :
    ∀ (models : List String) (le0 : Option Outcome) (evs : List Event) (le : Option Outcome),
      Src.runLoop oracle models le0 = .exhausted evs le →
      le = ((failuresIn evs).getLast?).or le0 ∧ evs.filter Event.isPost = [] := by
  intro models
  induction models with
  | nil =>
    intro le0 evs le h
    unfold Src.runLoop at h
    obtain ⟨h1, h2⟩ := Src.LoopOut.exhausted.inj h
    subst h1; subst h2
    simp [failuresIn]
  | cons m rest ih =>
    intro le0 evs le h
    unfold Src.runLoop at h
    cases ht : Src.tryCandidate oracle m with
    | ok t evs1 =>
      rw [ht] at h
      simp [Src.LoopOut.prepend] at h
    | aborted evs1 e1 =>
      rw [ht] at h
      simp [Src.LoopOut.prepend] at h
    | failed evs1 e1 =>
      rw [ht] at h
      dsimp only at h
      cases hr : Src.runLoop oracle rest (some e1) with
      | accepted t2 m2 evs2 le2 =>
        rw [hr] at h
        simp [Src.LoopOut.prepend] at h
      | aborted evs2 e2 =>
        rw [hr] at h
        simp [Src.LoopOut.prepend] at h
      | exhausted evs2 le2 =>
        rw [hr] at h
        simp only [Src.LoopOut.prepend] at h
        obtain ⟨h1, h2⟩ := Src.LoopOut.exhausted.inj h
        subst h1; subst h2
        obtain ⟨hle2, hnp2⟩ := ih (some e1) evs2 le2 hr
        obtain ⟨hlast1, hnp1⟩ := Src.tryCandidate_failed_lastErr ht
        constructor
        · rw [failuresIn_append]
          cases hg : (failuresIn evs2).getLast? with
          | none =>
            have h2nil : failuresIn evs2 = [] := by
              cases hx : failuresIn evs2
              · rfl
              · rw [hx] at hg; simp [List.getLast?] at hg
            rw [h2nil, List.append_nil, hlast1]
            rw [hle2, hg]
            rfl
          | some x =>
            have h2ne : failuresIn evs2 ≠ [] := by
              intro hx; rw [hx] at hg; simp at hg
            rw [List.getLast?_append_of_ne_nil _ h2ne, hg, hle2, hg]
            rfl
        · rw [List.filter_append, hnp1, hnp2]
          rfl

theorem PySrc.pyRunLoop_exhausted_inv (oracle : String → Outcome) :
    ∀ (models : List String) (le0 : Option Outcome) (evs : List Event) (le : Option Outcome),
      PySrc.runLoop oracle models le0 = .exhausted evs le →
      le = ((failuresIn evs).getLast?).or le0 ∧ evs.filter Event.isPost = [] := by
  intro models
  induction models with
  | nil =>
    intro le0 evs le h
    unfold PySrc.runLoop at h
    obtain ⟨h1, h2⟩ := PySrc.PyLoopOut.exhausted.inj h
    subst h1; subst h2
    simp [failuresIn]
  | cons m rest ih =>
    intro le0 evs le h
    unfold PySrc.runLoop at h
    cases h0 : oracle m with
    | success t =>
      rw [h0] at h
      simp at h
    | apiError code msg =>
      rw [h0] at h
      dsimp only at h
      cases hr : PySrc.runLoop oracle rest (some (Outcome.apiError code msg)) with
      | accepted t2 m2 evs2 le2 =>
        rw [hr] at h
        simp [PySrc.PyLoopOut.prepend] at h
      | exhausted evs2 le2 =>
        rw [hr] at h
        simp only [PySrc.PyLoopOut.prepend] at h
        obtain ⟨h1, h2⟩ := PySrc.PyLoopOut.exhausted.inj h
        subst h1; subst h2
        obtain ⟨hle2, hnp2⟩ := ih _ evs2 le2 hr
        have hf1 : failuresIn ([Event.invoke m 0, Event.failObs (Outcome.apiError code msg)] ++
            (if PySrc.isRateLimitMsg (Outcome.apiError code msg).message = true
             then [Event.sleep 10] else [])) = [Outcome.apiError code msg] := by
          split <;> simp [failuresIn]
        have hp1 : ([Event.invoke m 0, Event.failObs (Outcome.apiError code msg)] ++
            (if PySrc.isRateLimitMsg (Outcome.apiError code msg).message = true
             then [Event.sleep 10] else [])).filter Event.isPost = [] := by
          split <;> simp [Event.isPost]
        constructor
        · rw [failuresIn_append, hf1]
          cases hg : (failuresIn evs2).getLast? with
          | none =>
            have h2nil : failuresIn evs2 = [] := by
              cases hx : failuresIn evs2
              · rfl
              · rw [hx] at hg; simp [List.getLast?] at hg
            rw [h2nil, List.append_nil]
            rw [hle2, hg]
            rfl
          | some x =>
            have h2ne : failuresIn evs2 ≠ [] := by
              intro hx; rw [hx] at hg; simp at hg
            rw [List.getLast?_append_of_ne_nil _ h2ne, hg, hle2, hg]
            rfl
        · rw [List.filter_append, hp1, hnp2]
          rfl
    | fatal msg =>
      rw [h0] at h
      dsimp only at h
      cases hr : PySrc.runLoop oracle rest (some (Outcome.fatal msg)) with
      | accepted t2 m2 evs2 le2 =>
        rw [hr] at h
        simp [PySrc.PyLoopOut.prepend] at h
      | exhausted evs2 le2 =>
        rw [hr] at h
        simp only [PySrc.PyLoopOut.prepend] at h
        obtain ⟨h1, h2⟩ := PySrc.PyLoopOut.exhausted.inj h
        subst h1; subst h2
        obtain ⟨hle2, hnp2⟩ := ih _ evs2 le2 hr
        have hf1 : failuresIn ([Event.invoke m 0, Event.failObs (Outcome.fatal msg)] ++
            (if PySrc.isRateLimitMsg (Outcome.fatal msg).message = true
             then [Event.sleep 10] else [])) = [Outcome.fatal msg] := by
          split <;> simp [failuresIn]
        have hp1 : ([Event.invoke m 0, Event.failObs (Outcome.fatal msg)] ++
            (if PySrc.isRateLimitMsg (Outcome.fatal msg).message = true
             then [Event.sleep 10] else [])).filter Event.isPost = [] := by
          split <;> simp [Event.isPost]
        constructor
        · rw [failuresIn_append, hf1]
          cases hg : (failuresIn evs2).getLast? with
          | none =>
            have h2nil : failuresIn evs2 = [] := by
              cases hx : failuresIn evs2
              · rfl
              · rw [hx] at hg; simp [List.getLast?] at hg
            rw [h2nil, List.append_nil]
            rw [hle2, hg]
            rfl
          | some x =>
            have h2ne : failuresIn evs2 ≠ [] := by
              intro hx; rw [hx] at hg; simp at hg
            rw [List.getLast?_append_of_ne_nil _ h2ne, hg, hle2, hg]
            rfl
        · rw [List.filter_append, hp1, hnp2]
          rfl

theorem Src.loopOut_events_prepend (evs : List Event) (r : Src.LoopOut) :
    (Src.LoopOut.prepend evs r).events = evs ++ r.events := by
  cases r <;> rfl

theorem PySrc.pyLoopOut_events_prepend (evs : List Event) (r : PySrc.PyLoopOut) :
    (PySrc.PyLoopOut.prepend evs r).events = evs ++ r.events := by
  cases r <;> rfl

theorem Src.tryCandidate_no_post (oracle : String → Nat → Outcome) (m : String) :
    (Src.tryCandidate oracle m).events.filter Event.isPost = [] := by
  unfold Src.tryCandidate
  cases h0 : oracle m 0 <;> dsimp only
  case success t => simp [Src.TryResult.events, Event.isPost]
  case fatal msg => simp [Src.TryResult.events, Event.isPost]
  case apiError code msg =>
    by_cases hrl : isRateLimit code msg
    · rw [if_pos hrl]
      unfold Src.rateLimitBranch
      cases hp : Src.parse_retry_delay msg with
      | none => simp [Src.TryResult.events, Event.isPost]
      | some d =>
        dsimp only
        by_cases hd : 1 < d
        · rw [if_pos hd]
          cases oracle m 1 <;> simp [Src.TryResult.events, Event.isPost]
        · rw [if_neg hd]
          simp [Src.TryResult.events, Event.isPost]
    · rw [if_neg hrl]
      simp [Src.TryResult.events, Event.isPost]

theorem Src.runLoop_no_post (oracle : String → Nat → Outcome) :
    ∀ (models : List String) (le : Option Outcome),
      (Src.runLoop oracle models le).events.filter Event.isPost = [] := by
  intro models
  induction models with
  | nil =>
    intro le
    simp [Src.runLoop, Src.LoopOut.events]
  | cons m rest ih =>
    intro le
    unfold Src.runLoop
    have hnp := Src.tryCandidate_no_post oracle m
    cases ht : Src.tryCandidate oracle m with
    | ok t evs1 =>
      rw [ht] at hnp
      simpa [Src.LoopOut.events, Src.TryResult.events] using hnp
    | aborted evs1 e1 =>
      rw [ht] at hnp
      simpa [Src.LoopOut.events, Src.TryResult.events] using hnp
    | failed evs1 e1 =>
      rw [ht] at hnp
      dsimp only
      rw [Src.loopOut_events_prepend, List.filter_append]
      simp only [Src.TryResult.events] at hnp
      rw [hnp, ih (some e1)]
      rfl

theorem PySrc.pyRunLoop_no_post (oracle : String → Outcome) :
    ∀ (models : List String) (le : Option Outcome),
      (PySrc.runLoop oracle models le).events.filter Event.isPost = [] := by
  intro models
  induction models with
  | nil =>
    intro le
    simp [PySrc.runLoop, PySrc.PyLoopOut.events]
  | cons m rest ih =>
    intro le
    unfold PySrc.runLoop
    cases h0 : oracle m with
    | success t =>
      simp [PySrc.PyLoopOut.events, Event.isPost]
    | apiError code msg =>
      dsimp only
      rw [PySrc.pyLoopOut_events_prepend, List.filter_append, ih]
      have : ([Event.invoke m 0, Event.failObs (Outcome.apiError code msg)] ++
          (if PySrc.isRateLimitMsg (Outcome.apiError code msg).message = true
           then [Event.sleep 10] else [])).filter Event.isPost = [] := by
        split <;> simp [Event.isPost]
      rw [this]
      rfl
    | fatal msg =>
      dsimp only
      rw [PySrc.pyLoopOut_events_prepend, List.filter_append, ih]
      have : ([Event.invoke m 0, Event.failObs (Outcome.fatal msg)] ++
          (if PySrc.isRateLimitMsg (Outcome.fatal msg).message = true
           then [Event.sleep 10] else [])).filter Event.isPost = [] := by
        split <;> simp [Event.isPost]
      rw [this]
      rfl

theorem Src.mainRun_at_most_one_post (diffText : String)
    (oracle : String → Nat → Outcome) (modelName : String) :
    ((Src.mainRun diffText oracle modelName).2.filter Event.isPost).length ≤ 1 := by
  unfold Src.mainRun
  by_cases hd : diffText = ""
  · rw [if_pos hd]
    simp
  · rw [if_neg hd]
    have hnp := Src.runLoop_no_post oracle (modelsToTry modelName) none
    cases hr : Src.runLoop oracle (modelsToTry modelName) none with
    | accepted t m evs le =>
      rw [hr] at hnp
      simp only [Src.LoopOut.events] at hnp
      dsimp only
      by_cases hok : t ≠ "" ∧ m ≠ ""
      · rw [if_pos hok]
        simp [List.filter_append, hnp, Event.isPost]
      · rw [if_neg hok]
        simp [hnp]
    | exhausted evs le =>
      rw [hr] at hnp
      simp only [Src.LoopOut.events] at hnp
      simp [hnp]
    | aborted evs e =>
      rw [hr] at hnp
      simp only [Src.LoopOut.events] at hnp
      simp [hnp]

theorem PySrc.pyMainRun_at_most_one_post (diffText : String)
    (oracle : String → Outcome) (modelName : String) :
    ((PySrc.mainRun diffText oracle modelName).2.filter Event.isPost).length ≤ 1 := by
  unfold PySrc.mainRun
  by_cases hd : diffText = ""
  · rw [if_pos hd]
    simp
  · rw [if_neg hd]
    have hnp := PySrc.pyRunLoop_no_post oracle (modelsToTry modelName) none
    cases hr : PySrc.runLoop oracle (modelsToTry modelName) none with
    | accepted t m evs le =>
      rw [hr] at hnp
      simp only [PySrc.PyLoopOut.events] at hnp
      dsimp only
      by_cases hok : t ≠ "" ∧ m ≠ ""
      · rw [if_pos hok]
        simp [List.filter_append, hnp, Event.isPost]
      · rw [if_neg hok]
        simp [hnp]
    | exhausted evs le =>
      rw [hr] at hnp
      simp only [PySrc.PyLoopOut.events] at hnp
      simp [hnp]

end Reviewer

namespace Reviewer

/-- C6: the candidate list attempted by the fallback loop is the fixed default
priority sequence, with the caller-supplied override model inserted at the front
exactly when the override is set (nonempty) and not already present in the
default sequence; an override already present (or unset) is never re-inserted,
and the list contains no duplicate introduced by the override. -/
theorem claim_c6_override_model_insertion :
    (∀ ov : String, ov ≠ "" → ov ∉ MODEL_PRIORITIES →
      modelsToTry ov = ov :: MODEL_PRIORITIES) ∧
    (∀ ov : String, ov = "" ∨ ov ∈ MODEL_PRIORITIES → modelsToTry ov = MODEL_PRIORITIES) ∧
    (∀ ov : String, (modelsToTry ov).Nodup) := by
  refine ⟨?_, ?_, ?_⟩
  · intro ov h1 h2
    unfold modelsToTry
    rw [if_pos ⟨h1, h2⟩]
  · intro ov h
    unfold modelsToTry
    rw [if_neg]
    rintro ⟨hne, hnotin⟩
    rcases h with h | h
    · exact hne h
    · exact hnotin h
  · intro ov
    unfold modelsToTry
    split
    · rename_i h
      exact List.nodup_cons.mpr ⟨h.2, by decide⟩
    · decide

/-- Witness for C6: a fresh override model is prepended to the priority list. -/
theorem claim_c6_override_model_insertion_witness :
    modelsToTry "custom-model" = "custom-model" :: MODEL_PRIORITIES :=
  claim_c6_override_model_insertion.1 "custom-model" (by decide) (by decide)

/-- C10: with the override environment variable unset, `MODEL_NAME` defaults to
`DEFAULT_MODEL_NAME`, which is already a member of the fixed priority list in
both variants, so no prepend occurs and the attempted candidate list equals
`MODEL_PRIORITIES` exactly; moreover the candidate list is nonempty for every
override value, so the fallback loop always has at least one candidate. -/
theorem claim_c10_default_model_in_priorities :
    Src.DEFAULT_MODEL_NAME ∈ MODEL_PRIORITIES ∧
    PySrc.DEFAULT_MODEL_NAME ∈ MODEL_PRIORITIES ∧
    modelsToTry Src.DEFAULT_MODEL_NAME = MODEL_PRIORITIES ∧
    modelsToTry PySrc.DEFAULT_MODEL_NAME = MODEL_PRIORITIES ∧
    (∀ ov : String, modelsToTry ov ≠ []) := by
  refine ⟨by decide, by decide, by decide, by decide, ?_⟩
  intro ov
  unfold modelsToTry
  split
  · exact List.cons_ne_nil _ _
  · decide

/-- Witness for C10: even the empty override yields a nonempty candidate list. -/
theorem claim_c10_default_model_in_priorities_witness :
    modelsToTry "" ≠ [] :=
  claim_c10_default_model_in_priorities.2.2.2.2 ""

/-- C5: for every change set in which all files are filtered out, the assembled
diff text is empty and the run terminates cleanly with exit code 0 and an empty
event trace — the model provider is never invoked, the comment sink is never
invoked, and the empty result is not treated as an error.  Proven for both
variants. -/
theorem claim_c5_empty_changeset_clean_exit
    (filesS filesP : List PRFile)
    (oracleS : String → Nat → Outcome) (oracleP : String → Outcome)
    (mnS mnP : String)
    (hS : ∀ f ∈ filesS, Src.processFile f = none)
    (hP : ∀ f ∈ filesP, PySrc.processFile f = PySrc.FileAction.skip ∨
      PySrc.processFile f = PySrc.FileAction.skipWarn) :
    Src.fullDiff filesS = "" ∧
    Src.mainRun (Src.fullDiff filesS) oracleS mnS = (0, []) ∧
    PySrc.fullDiff filesP = "" ∧
    PySrc.mainRun (PySrc.fullDiff filesP) oracleP mnP = (0, []) := by
  have hSb : Src.diffBlocks filesS = [] := by
    unfold Src.diffBlocks
    exact List.filterMap_eq_nil_iff.mpr hS
  have hPb : PySrc.diffBlocks filesP = [] := by
    unfold PySrc.diffBlocks
    refine List.filterMap_eq_nil_iff.mpr ?_
    intro f hf
    rcases hP f hf with h | h <;> rw [h]
  have hSd : Src.fullDiff filesS = "" := by
    unfold Src.fullDiff
    rw [hSb]
    rfl
  have hPd : PySrc.fullDiff filesP = "" := by
    unfold PySrc.fullDiff
    rw [hPb]
    rfl
  refine ⟨hSd, ?_, hPd, ?_⟩
  · rw [hSd]
    unfold Src.mainRun
    rw [if_pos rfl]
  · rw [hPd]
    unfold PySrc.mainRun
    rw [if_pos rfl]

/-- Witness for C5: a change set containing only a lockfile modification runs to
a clean exit 0 with no provider or sink activity. -/
theorem claim_c5_empty_changeset_clean_exit_witness :
    Src.mainRun (Src.fullDiff [⟨"package-lock.json", "modified", some "+x"⟩])
      (fun _ _ => Outcome.success "t") "" = (0, []) :=
  (claim_c5_empty_changeset_clean_exit
    [⟨"package-lock.json", "modified", some "+x"⟩]
    [⟨"package-lock.json", "modified", some "+x"⟩]
    (fun _ _ => Outcome.success "t") (fun _ => Outcome.success "t") "" ""
    (by decide) (by decide)).2.1

/-- C2: if the first attempted candidate's generation call succeeds, the loop
accepts that candidate's text with a trace containing only the single invocation
of that candidate — no subsequent candidate is ever invoked — and, in every
run whatsoever, at most one comment is ever posted.  Proven for both variants. -/
theorem claim_c2_first_success_wins
    (oracleS : String → Nat → Outcome) (oracleP : String → Outcome)
    (m t : String) (rest : List String) (le : Option Outcome)
    (hS : oracleS m 0 = .success t) (hP : oracleP m = .success t) :
    Src.runLoop oracleS (m :: rest) le = .accepted t m [.invoke m 0] le ∧
    PySrc.runLoop oracleP (m :: rest) le = .accepted t m [.invoke m 0] le ∧
    (∀ (diffText mn : String) (oracle : String → Nat → Outcome),
      ((Src.mainRun diffText oracle mn).2.filter Event.isPost).length ≤ 1) ∧
    (∀ (diffText mn : String) (oracle : String → Outcome),
      ((PySrc.mainRun diffText oracle mn).2.filter Event.isPost).length ≤ 1) := by
  refine ⟨?_, ?_, ?_, ?_⟩
  · unfold Src.runLoop Src.tryCandidate
    rw [hS]
  · unfold PySrc.runLoop
    rw [hP]
  · intro d mn oracle
    exact Src.mainRun_at_most_one_post d oracle mn
  · intro d mn oracle
    exact PySrc.pyMainRun_at_most_one_post d oracle mn

/-- Witness for C2: a first candidate that succeeds immediately is accepted with
exactly one invocation. -/
theorem claim_c2_first_success_wins_witness :
    Src.runLoop (fun _ _ => .success "LGTM") ("m1" :: ["m2"]) none =
      .accepted "LGTM" "m1" [.invoke "m1" 0] none :=
  (claim_c2_first_success_wins (fun _ _ => .success "LGTM") (fun _ => .success "LGTM")
    "m1" "LGTM" ["m2"] none rfl rfl).1

/-- C4: in every run in which the fallback loop exhausts its candidates without
accepting a result, the failure surfaced is the most recent `last_error`
recorded across all attempts (every non-success, including a failed retry,
overwrites the previous one), the comment sink is never invoked, and the
process exits with code 1.  Proven for both variants. -/
theorem claim_c4_all_fail_last_error
    (oracleS : String → Nat → Outcome) (oracleP : String → Outcome)
    (mn diffText : String) (hdiff : diffText ≠ "")
    (hS : (Src.runLoop oracleS (modelsToTry mn) none).isExhausted = true)
    (hP : (PySrc.runLoop oracleP (modelsToTry mn) none).isExhausted = true) :
    Src.mainRun diffText oracleS mn =
      (1, (Src.runLoop oracleS (modelsToTry mn) none).events) ∧
    (Src.runLoop oracleS (modelsToTry mn) none).lastErr =
      (failuresIn (Src.runLoop oracleS (modelsToTry mn) none).events).getLast? ∧
    (Src.runLoop oracleS (modelsToTry mn) none).events.filter Event.isPost = [] ∧
    PySrc.mainRun diffText oracleP mn =
      (1, (PySrc.runLoop oracleP (modelsToTry mn) none).events) ∧
    (PySrc.runLoop oracleP (modelsToTry mn) none).lastErr =
      (failuresIn (PySrc.runLoop oracleP (modelsToTry mn) none).events).getLast? ∧
    (PySrc.runLoop oracleP (modelsToTry mn) none).events.filter Event.isPost = [] := by
  cases hr : Src.runLoop oracleS (modelsToTry mn) none with
  | accepted t m evs le =>
    rw [hr] at hS
    simp [Src.LoopOut.isExhausted] at hS
  | aborted evs e =>
    rw [hr] at hS
    simp [Src.LoopOut.isExhausted] at hS
  | exhausted evs le =>
    cases hrp : PySrc.runLoop oracleP (modelsToTry mn) none with
    | accepted t2 m2 evs2 le2 =>
      rw [hrp] at hP
      simp [PySrc.PyLoopOut.isExhausted] at hP
    | exhausted evs2 le2 =>
      obtain ⟨hle, hnp⟩ := Src.runLoop_exhausted_inv oracleS (modelsToTry mn) none evs le hr
      obtain ⟨hle2, hnp2⟩ :=
        PySrc.pyRunLoop_exhausted_inv oracleP (modelsToTry mn) none evs2 le2 hrp
      rw [option_or_none] at hle hle2
      refine ⟨?_, ?_, ?_, ?_, ?_, ?_⟩
      · unfold Src.mainRun
        rw [if_neg hdiff, hr]
        rfl
      · simpa [Src.LoopOut.lastErr, Src.LoopOut.events] using hle
      · simpa [Src.LoopOut.events] using hnp
      · unfold PySrc.mainRun
        rw [if_neg hdiff, hrp]
        rfl
      · simpa [PySrc.PyLoopOut.lastErr, PySrc.PyLoopOut.events] using hle2
      · simpa [PySrc.PyLoopOut.events] using hnp2

/-- Witness for C4: a providers-always-fail run exits 1 with the loop trace. -/
theorem claim_c4_all_fail_last_error_witness :
    Src.mainRun "d" (fun _ _ => .apiError none "boom") "gemini-2.5-pro" =
      (1, (Src.runLoop (fun _ _ => .apiError none "boom")
        (modelsToTry "gemini-2.5-pro") none).events) :=
  (claim_c4_all_fail_last_error (fun _ _ => .apiError none "boom")
    (fun _ => .apiError none "boom") "gemini-2.5-pro" "d"
    (by decide) (by decide) (by decide)).1

/-- C1: in the `src` controller, a rate-limited failure whose message parses to
a delay `D > 1` makes the controller sleep `D` seconds and retry the same
candidate exactly once more before any fallback: on a successful retry the
candidate is accepted after the trace `[invoke, fail, sleep D, retry-invoke]`;
on a failed retry the new failure is recorded as `last_error` and the loop
advances to the remaining candidates with no further attempt on this one. -/
theorem claim_c1_rate_limited_single_retry
    (oracle : String → Nat → Outcome) (m msg : String) (code : Option Int) (D : ℚ)
    (h0 : oracle m 0 = .apiError code msg)
    (hrl : Src.isRateLimit code msg = true)
    (hD : Src.parse_retry_delay msg = some D)
    (hD1 : 1 < D) :
    (∀ t, oracle m 1 = .success t →
      Src.tryCandidate oracle m =
        .ok t [.invoke m 0, .failObs (.apiError code msg), .sleep D, .invoke m 1]) ∧
    (∀ o, oracle m 1 = o → o.isSuccess = false →
      Src.tryCandidate oracle m =
        .failed [.invoke m 0, .failObs (.apiError code msg), .sleep D, .invoke m 1,
          .failObs o] o ∧
      (∀ (rest : List String) (le : Option Outcome),
        Src.runLoop oracle (m :: rest) le =
          Src.LoopOut.prepend
            [.invoke m 0, .failObs (.apiError code msg), .sleep D, .invoke m 1, .failObs o]
            (Src.runLoop oracle rest (some o)))) := by
  have htc : Src.tryCandidate oracle m = (match oracle m 1 with
      | .success t =>
        .ok t [.invoke m 0, .failObs (.apiError code msg), .sleep D, .invoke m 1]
      | o =>
        .failed [.invoke m 0, .failObs (.apiError code msg), .sleep D, .invoke m 1,
          .failObs o] o) := by
    unfold Src.tryCandidate
    rw [h0]
    dsimp only
    rw [if_pos hrl]
    unfold Src.rateLimitBranch
    rw [hD]
    dsimp only
    rw [if_pos hD1]
  constructor
  · intro t ht
    rw [htc, ht]
  · intro o ho hno
    have hfail : Src.tryCandidate oracle m =
        .failed [.invoke m 0, .failObs (.apiError code msg), .sleep D, .invoke m 1,
          .failObs o] o := by
      rw [htc, ho]
      cases o with
      | success t => simp [Outcome.isSuccess] at hno
      | apiError c2 m2 => rfl
      | fatal m2 => rfl
    refine ⟨hfail, ?_⟩
    intro rest le
    conv_lhs => rw [Src.runLoop]
    rw [hfail]

/-- Witness for C1: a 429 failure advertising "retry in 3 seconds" is retried
once after a 3-second sleep, and a second failure is recorded and advances. -/
theorem claim_c1_rate_limited_single_retry_witness :
    Src.tryCandidate
      (fun _ i => if i = 0 then .apiError (some 429) "quota hit: retry in 3 seconds"
                  else .apiError none "still failing") "m1" =
      .failed [.invoke "m1" 0,
        .failObs (.apiError (some 429) "quota hit: retry in 3 seconds"),
        .sleep 3, .invoke "m1" 1, .failObs (.apiError none "still failing")]
        (.apiError none "still failing") :=
  (((claim_c1_rate_limited_single_retry
      (fun _ i => if i = 0 then .apiError (some 429) "quota hit: retry in 3 seconds"
                  else .apiError none "still failing")
      "m1" "quota hit: retry in 3 seconds" (some 429) 3
      rfl (by decide) (by decide) (by decide)).2
    (.apiError none "still failing") rfl rfl)).1

/-- C3: a model failure caught by the `src` loop is classified rate-limited
exactly when it carries status code 429 or its message contains, case-
insensitively, one of "429", "resource exhausted", "rate limit", "quota"; every
failure so classified takes the backoff/retry branch, and every other caught
failure makes the loop advance immediately with no sleep and no retry. -/
theorem claim_c3_rate_limit_classification (code : Option Int) (msg : String) :
    (Src.isRateLimit code msg = true ↔
      (code = some 429 ∨
        strContains (lowerStr msg) "429" = true ∨
        strContains (lowerStr msg) "resource exhausted" = true ∨
        strContains (lowerStr msg) "rate limit" = true ∨
        strContains (lowerStr msg) "quota" = true)) ∧
    (∀ (oracle : String → Nat → Outcome) (m : String),
      oracle m 0 = .apiError code msg →
      (Src.isRateLimit code msg = true →
        Src.tryCandidate oracle m = Src.rateLimitBranch oracle m code msg) ∧
      (Src.isRateLimit code msg = false →
        Src.tryCandidate oracle m =
          .failed [.invoke m 0, .failObs (.apiError code msg)] (.apiError code msg))) := by
  constructor
  · unfold Src.isRateLimit
    rw [← strContains_lower_429 msg]
    simp only [Bool.or_eq_true, beq_iff_eq]
    tauto
  · intro oracle m h0
    constructor
    · intro hrl
      unfold Src.tryCandidate
      rw [h0]
      dsimp only
      rw [if_pos hrl]
    · intro hrl
      have hrl' : ¬ (Src.isRateLimit code msg = true) := by
        rw [hrl]
        decide
      unfold Src.tryCandidate
      rw [h0]
      dsimp only
      rw [if_neg hrl']

/-- Witness for C3: "QUOTA" classifies as rate-limited case-insensitively, and
an unclassified failure advances immediately with a two-event trace. -/
theorem claim_c3_rate_limit_classification_witness :
    Src.isRateLimit none "QUOTA exceeded" = true ∧
    Src.tryCandidate (fun _ _ => .apiError none "boom") "m" =
      .failed [.invoke "m" 0, .failObs (.apiError none "boom")] (.apiError none "boom") :=
  ⟨(claim_c3_rate_limit_classification none "QUOTA exceeded").1.mpr
      (Or.inr (Or.inr (Or.inr (Or.inr (by decide))))),
    ((claim_c3_rate_limit_classification none "boom").2
      (fun _ _ => .apiError none "boom") "m" rfl).2 (by decide)⟩

/-- C7: in `python_src`'s `get_pr_data`, for every file passing the status,
exclusion-list and extension filters: an absent patch makes the file be skipped
with a warning; a patch longer than the 20000-character threshold is included
truncated to the threshold with the `[TRUNCATED]` marker appended; a nonempty
patch under the threshold is included verbatim.  (`processFile` is total, so
oversized input can never make the fetch fail.) -/
theorem claim_c7_patch_guard_and_truncation (f : PRFile)
    (h1 : f.status ≠ "removed")
    (h2 : PySrc.EXCLUDED.any (fun x => strContains f.filename x) = false)
    (h3 : REVIEWABLE_EXTENSIONS.any (fun e => strEndsWith f.filename e) = true) :
    (f.patch = none → PySrc.processFile f = .skipWarn) ∧
    (∀ p, f.patch = some p → 20000 < p.length →
      PySrc.processFile f =
        .block (fileBlock f.filename (p.take 20000 ++ "\n... [TRUNCATED]"))) ∧
    (∀ p, f.patch = some p → p ≠ "" → p.length < 20000 →
      PySrc.processFile f = .block (fileBlock f.filename p)) := by
  have h2' : ¬ (PySrc.EXCLUDED.any (fun x => strContains f.filename x) = true) := by
    rw [h2]
    decide
  have hbase : PySrc.processFile f = (match f.patch with
      | none => .skipWarn
      | some p =>
        if p = "" then .skipWarn
        else .block (fileBlock f.filename
          (if p.length < 20000 then p else p.take 20000 ++ "\n... [TRUNCATED]"))) := by
    unfold PySrc.processFile
    rw [if_neg h1, if_neg h2', if_pos h3]
  refine ⟨?_, ?_, ?_⟩
  · intro hp
    rw [hbase, hp]
  · intro p hp hlen
    rw [hbase, hp]
    dsimp only
    have hpne : p ≠ "" := by
      intro he
      subst he
      have : ("" : String).length = 0 := rfl
      omega
    rw [if_neg hpne, if_neg (by omega : ¬ p.length < 20000)]
  · intro p hp hpne hlen
    rw [hbase, hp]
    dsimp only
    rw [if_neg hpne, if_pos hlen]

/-- Witness for C7: a reviewable file with no patch data is skipped with a
warning rather than failing the fetch. -/
theorem claim_c7_patch_guard_and_truncation_witness :
    PySrc.processFile ⟨"a.py", "modified", none⟩ = PySrc.FileAction.skipWarn :=
  (claim_c7_patch_guard_and_truncation ⟨"a.py", "modified", none⟩
    (by decide) (by decide) (by decide)).1 rfl

/-- C8: no block appears in the assembled diff for a file whose status is
"removed" or whose path contains a configured excluded substring, and a block
appears only when the path also ends in a reviewable extension; in particular a
change set containing only a `package-lock.json` modification yields zero file
blocks.  Proven for both variants. -/
theorem claim_c8_filtering_invariant (f g : PRFile) :
    (f.status = "removed" → PySrc.processFile f = .skip) ∧
    (PySrc.EXCLUDED.any (fun x => strContains f.filename x) = true →
      PySrc.processFile f = .skip) ∧
    (∀ t, PySrc.processFile f = .block t →
      f.status ≠ "removed" ∧
      PySrc.EXCLUDED.any (fun x => strContains f.filename x) = false ∧
      REVIEWABLE_EXTENSIONS.any (fun e => strEndsWith f.filename e) = true) ∧
    (g.status = "removed" → Src.processFile g = none) ∧
    (Src.EXCLUDED.any (fun x => strContains g.filename x) = true →
      Src.processFile g = none) ∧
    (∀ t, Src.processFile g = some t →
      g.status ≠ "removed" ∧
      Src.EXCLUDED.any (fun x => strContains g.filename x) = false ∧
      REVIEWABLE_EXTENSIONS.any (fun e => strEndsWith g.filename e) = true) ∧
    PySrc.diffBlocks [⟨"package-lock.json", "modified", some "+lock"⟩] = [] ∧
    Src.diffBlocks [⟨"package-lock.json", "modified", some "+lock"⟩] = [] := by
  refine ⟨?_, ?_, ?_, ?_, ?_, ?_, by decide, by decide⟩
  · intro h
    unfold PySrc.processFile
    rw [if_pos h]
  · intro h
    unfold PySrc.processFile
    by_cases hs : f.status = "removed"
    · rw [if_pos hs]
    · rw [if_neg hs, if_pos h]
  · intro t h
    unfold PySrc.processFile at h
    by_cases hs : f.status = "removed"
    · rw [if_pos hs] at h
      simp at h
    · rw [if_neg hs] at h
      by_cases he : PySrc.EXCLUDED.any (fun x => strContains f.filename x) = true
      · rw [if_pos he] at h
        simp at h
      · rw [if_neg he] at h
        by_cases hx : REVIEWABLE_EXTENSIONS.any (fun e => strEndsWith f.filename e) = true
        · exact ⟨hs, by simpa using he, hx⟩
        · rw [if_neg hx] at h
          simp at h
  · intro h
    unfold Src.processFile
    rw [if_pos h]
  · intro h
    unfold Src.processFile
    by_cases hs : g.status = "removed"
    · rw [if_pos hs]
    · rw [if_neg hs, if_pos h]
  · intro t h
    unfold Src.processFile at h
    by_cases hs : g.status = "removed"
    · rw [if_pos hs] at h
      simp at h
    · rw [if_neg hs] at h
      by_cases he : Src.EXCLUDED.any (fun x => strContains g.filename x) = true
      · rw [if_pos he] at h
        simp at h
      · rw [if_neg he] at h
        by_cases hx : REVIEWABLE_EXTENSIONS.any (fun e => strEndsWith g.filename e) = true
        · exact ⟨hs, by simpa using he, hx⟩
        · rw [if_neg hx] at h
          simp at h

/-- Witness for C8: a removed file never produces a block. -/
theorem claim_c8_filtering_invariant_witness :
    PySrc.processFile ⟨"gone.py", "removed", some "+x"⟩ = PySrc.FileAction.skip :=
  (claim_c8_filtering_invariant ⟨"gone.py", "removed", some "+x"⟩
    ⟨"gone.py", "removed", some "+x"⟩).1 rfl

/-- C9: `python_src`'s `parse_retry_delay` is case-insensitive (lowering the
message first does not change the result), tries its patterns in their fixed
order returning the first captured number in seconds, yields the fixed default
of 5.0 seconds for a bare rate-limit marker ("429" or "resource exhausted")
with no captured number, and returns `none` when nothing matches.  (The
embedding is a total function: the code's fallback arm for malformed numbers is
unreachable because `float` accepts every string the groups can capture.) -/
theorem claim_c9_retry_delay_parse (msg : String) :
    (PySrc.parse_retry_delay msg = PySrc.parse_retry_delay (lowerStr msg)) ∧
    (∀ v, searchNum "retry in ".data secTail (lowerStr msg).data = some v →
      PySrc.parse_retry_delay msg = some v) ∧
    (searchNum "retry in ".data secTail (lowerStr msg).data = none →
      ∀ v, searchNum "retry after ".data secTail (lowerStr msg).data = some v →
      PySrc.parse_retry_delay msg = some v) ∧
    (searchNum "retry in ".data secTail (lowerStr msg).data = none →
      searchNum "retry after ".data secTail (lowerStr msg).data = none →
      ∀ v, searchNum "wait ".data secTail (lowerStr msg).data = some v →
      PySrc.parse_retry_delay msg = some v) ∧
    (searchNum "retry in ".data secTail (lowerStr msg).data = none →
      searchNum "retry after ".data secTail (lowerStr msg).data = none →
      searchNum "wait ".data secTail (lowerStr msg).data = none →
      containsSub (lowerStr msg).data "429".data = true →
      PySrc.parse_retry_delay msg = some 5) ∧
    (searchNum "retry in ".data secTail (lowerStr msg).data = none →
      searchNum "retry after ".data secTail (lowerStr msg).data = none →
      searchNum "wait ".data secTail (lowerStr msg).data = none →
      containsSub (lowerStr msg).data "429".data = false →
      containsSub (lowerStr msg).data "resource exhausted".data = true →
      PySrc.parse_retry_delay msg = some 5) ∧
    (searchNum "retry in ".data secTail (lowerStr msg).data = none →
      searchNum "retry after ".data secTail (lowerStr msg).data = none →
      searchNum "wait ".data secTail (lowerStr msg).data = none →
      containsSub (lowerStr msg).data "429".data = false →
      containsSub (lowerStr msg).data "resource exhausted".data = false →
      PySrc.parse_retry_delay msg = none) := by
  refine ⟨?_, ?_, ?_, ?_, ?_, ?_, ?_⟩
  · unfold PySrc.parse_retry_delay
    rw [lowerStr_idem]
  · intro v hv
    unfold PySrc.parse_retry_delay
    dsimp only
    rw [hv]
  · intro h1 v hv
    unfold PySrc.parse_retry_delay
    dsimp only
    rw [h1, hv]
  · intro h1 h2 v hv
    unfold PySrc.parse_retry_delay
    dsimp only
    rw [h1, h2, hv]
  · intro h1 h2 h3 h4
    unfold PySrc.parse_retry_delay
    dsimp only
    rw [h1, h2, h3]
    dsimp only
    rw [if_pos h4]
  · intro h1 h2 h3 h4 h5
    unfold PySrc.parse_retry_delay
    dsimp only
    rw [h1, h2, h3]
    dsimp only
    rw [if_neg (by rw [h4]; decide), if_pos h5]
  · intro h1 h2 h3 h4 h5
    unfold PySrc.parse_retry_delay
    dsimp only
    rw [h1, h2, h3]
    dsimp only
    rw [if_neg (by rw [h4]; decide), if_neg (by rw [h5]; decide)]

/-- Witness for C9: a mixed-case message parses to the number of seconds
captured by the first pattern. -/
theorem claim_c9_retry_delay_parse_witness :
    PySrc.parse_retry_delay "Please RETRY IN 7 seconds" = some 7 :=
  (claim_c9_retry_delay_parse "Please RETRY IN 7 seconds").2.1 7 (by decide)

end Reviewer
